import Mathlib

/-!
Verification development for the live-stream recorder / clip-trimming service
(`main.py`).  The Python source is shallowly embedded: pure helpers become
Lean functions over `List Char` / `String`, route handlers become functions
from an explicit state (directory listing, run-outcome oracle) to an effect
record, and the start-recording race is modelled as a small interleaving
step system.  Time values produced by Python's `float` are modelled as exact
decimal numbers `num / 10 ^ exp` (all inputs considered here are decimal
literals, on which `float` arithmetic of this program's magnitude is exact;
binary rounding is not modelled).
-/

namespace Recorder

/-- Characters stripped by Python's `str.strip()` (ASCII whitespace). -/
def pyIsSpace (c : Char) : Bool :=
  c = ' ' || c = '\t' || c = '\n' || c = '\r' || c = '\x0b' || c = '\x0c'

/-- `str.strip()` on a character list: drop whitespace from both ends. -/
def trimChars (l : List Char) : List Char :=
  ((l.dropWhile pyIsSpace).reverse.dropWhile pyIsSpace).reverse

/-- Python `str.split(sep)` for a one-character separator: split on every
occurrence, keeping empty fields. -/
def splitOnChar (sep : Char) : List Char → List (List Char)
  | [] => [[]]
  | c :: rest =>
    match splitOnChar sep rest with
    | [] => [[]]
    | h :: t => if c = sep then [] :: h :: t else (c :: h) :: t

def isDigitC (c : Char) : Bool := '0' ≤ c && c ≤ '9'

def digitsToNat (l : List Char) : Nat :=
  l.foldl (fun a c => 10 * a + (c.toNat - 48)) 0

/-- An exact decimal number `num / 10 ^ exp`: the value of a parsed Python
decimal literal. -/
structure DecVal where
  num : Int
  exp : Nat
deriving DecidableEq, Repr

/-- The rational number a `DecVal` denotes. -/
def DecVal.val (a : DecVal) : ℚ := (a.num : ℚ) / 10 ^ a.exp

def DecVal.neg (a : DecVal) : DecVal := ⟨-a.num, a.exp⟩

def DecVal.add (a b : DecVal) : DecVal :=
  ⟨a.num * 10 ^ (max a.exp b.exp - a.exp) + b.num * 10 ^ (max a.exp b.exp - b.exp),
   max a.exp b.exp⟩

def DecVal.mul (a b : DecVal) : DecVal := ⟨a.num * b.num, a.exp + b.exp⟩

def DecVal.sub (a b : DecVal) : DecVal := a.add b.neg

/-- Decidable `a ≤ b` on decimal values (cross-multiplied). -/
def DecVal.ble (a b : DecVal) : Bool := a.num * 10 ^ b.exp ≤ b.num * 10 ^ a.exp

/-- Body of a Python `float` literal after the optional sign: digits with at
most one decimal point (`"12"`, `"12."`, `".5"`, `"1.25"`).  Exponent,
`inf`/`nan`, and underscore forms of `float` are not exercised by this
program and are not modelled. -/
def pyDecimal (l : List Char) : Option DecVal :=
  match l.dropWhile isDigitC with
  | [] => if (l.takeWhile isDigitC).isEmpty then none
          else some ⟨digitsToNat (l.takeWhile isDigitC), 0⟩
  | '.' :: frac =>
    if frac.all isDigitC && !((l.takeWhile isDigitC).isEmpty && frac.isEmpty) then
      some ⟨digitsToNat (l.takeWhile isDigitC) * 10 ^ frac.length + digitsToNat frac,
            frac.length⟩
    else none
  | _ => none

/-- Python `float(s)`: strip whitespace, read an optional sign, then a
decimal literal; anything else raises (here: `none`). -/
def pyFloat (s : String) : Option DecVal :=
  match trimChars s.data with
  | [] => none
  | '-' :: rest => (pyDecimal rest).map DecVal.neg
  | '+' :: rest => pyDecimal rest
  | l => pyDecimal l

/-- `parse_time_to_seconds` (main.py lines 29-45): empty/whitespace-only
input is `None`; with `':'` present, exactly 2 parts parse as `m*60+s` and
exactly 3 as `h*3600+m*60+s` (any `float` failure, or any other part count
falling through to `float` of the whole string, is `None`); without `':'`,
plain `float`. -/
def parse_time_to_seconds (time_str : String) : Option DecVal :=
  if trimChars time_str.data = [] then none
  else if (trimChars time_str.data).contains ':' then
    match splitOnChar ':' (trimChars time_str.data) with
    | [m, s] =>
      match pyFloat ⟨m⟩, pyFloat ⟨s⟩ with
      | some mv, some sv => some ((mv.mul ⟨60, 0⟩).add sv)
      | _, _ => none
    | [h, m, s] =>
      match pyFloat ⟨h⟩, pyFloat ⟨m⟩, pyFloat ⟨s⟩ with
      | some hv, some mv, some sv => some (((hv.mul ⟨3600, 0⟩).add (mv.mul ⟨60, 0⟩)).add sv)
      | _, _, _ => none
    | _ => pyFloat ⟨trimChars time_str.data⟩
  else pyFloat ⟨trimChars time_str.data⟩

/-- Path components of a path string, as `pathlib` parses it: split on `'/'`,
dropping empty segments and single dots. -/
def pathSegs (s : String) : List String :=
  ((splitOnChar '/' s.data).filter (fun seg => decide (seg ≠ [] ∧ seg ≠ ['.']))).map
    (fun l => ⟨l⟩)

/-- OS-level resolution of `..` components, relative to the working
directory (a leading surplus `..` is clamped at that directory). -/
def pathResolve (segs : List String) : List String :=
  segs.foldl (fun acc seg => if seg = ".." then acc.dropLast else acc ++ [seg]) []

/-- `Path(base) / filename` (`pathlib` join): an absolute `filename`
replaces the base. -/
def joinUnder (base : List String) (filename : String) : List String :=
  match filename.data with
  | '/' :: _ => pathSegs filename
  | _ => base ++ pathSegs filename

/-- `DOWNLOAD_DIR = Path("downloads")` (main.py line 16). -/
def downloadsSegs : List String := ["downloads"]

/-- `str(Path)` of a relative path: components joined with `'/'`. -/
def joinSegs : List String → String
  | [] => ""
  | [s] => s
  | s :: rest => s ++ "/" ++ joinSegs rest

/-- `Path(p).stem`: the final component without its last suffix; the suffix
is a `'.'` at a position strictly inside the name. -/
def py_stem (p : String) : String :=
  match (pathSegs p).getLast? with
  | none => ""
  | some name =>
    let l := name.data
    let j := l.reverse.indexOf '.'
    if 0 < l.length - 1 - j ∧ l.length - 1 - j < l.length - 1 then
      ⟨l.take (l.length - 1 - j)⟩
    else name

/-- The extraction command `clip_video` builds for ffmpeg (main.py lines
86-106): input, seek offset `-ss`, optional `-t` duration, and output path.
The constant flags (`-c copy`, `-avoid_negative_ts make_zero`) carry no
information and are not fields. -/
structure FfmpegCmd where
  input : String
  ss : DecVal
  duration : Option DecVal
  output : String
deriving DecidableEq, Repr

/-- The output path `clip_video` uses (main.py lines 103-106): the caller's
`output_path` when given, else `{stem}_clip.mp4` next to the input. -/
def clip_output (input_path output_path : String) : String :=
  if output_path = ""
    then joinSegs ((pathSegs input_path).dropLast ++ [py_stem input_path ++ "_clip.mp4"])
    else output_path

/-- The validation and command-construction part of `clip_video` (main.py
lines 81-106), up to the `subprocess.run` call: returns the error message of
the failed validation, or the command that will be run.  `if end_time:` is
Python truthiness of the raw string, i.e. `end_time ≠ ""`. -/
def clip_video_plan (input_path start_time end_time output_path : String) :
    Except String FfmpegCmd :=
  match parse_time_to_seconds start_time with
  | none => .error "Invalid start time format"
  | some start_sec =>
    if end_time ≠ "" then
      match parse_time_to_seconds end_time with
      | none => .error "Invalid end time format"
      | some end_sec =>
        if end_sec.ble start_sec then .error "End time must be after start time"
        else .ok ⟨input_path, start_sec, some (end_sec.sub start_sec),
                  clip_output input_path output_path⟩
    else .ok ⟨input_path, start_sec, none, clip_output input_path output_path⟩

/-- What the external run of an `FfmpegCmd` is observed to do: the process
result (`returncode`, captured `stderr`) plus whether the output file exists
afterwards and its size in bytes. -/
structure RunOutcome where
  returncode : Int
  stderr : String
  outExists : Bool
  outSize : Nat

/-- The post-run decision of `clip_video` (main.py lines 108-115): success
iff exit code zero, the output file exists, and its size exceeds 1000
bytes; otherwise failure carrying `stderr.strip()` (or `"unknown error"`
when that is empty). -/
def clip_video_check (r : RunOutcome) (output_path : String) : Bool × String :=
  if r.returncode = 0 ∧ r.outExists = true ∧ 1000 < r.outSize then
    (true, "Clip created: " ++ output_path)
  else
    (false, "ffmpeg failed: " ++
      (if (⟨trimChars r.stderr.data⟩ : String) = "" then "unknown error"
       else ⟨trimChars r.stderr.data⟩))

/-- `clip_video` (main.py lines 81-115), with the external tool supplied as
an oracle from the command to its observed outcome. -/
def clip_video (input_path start_time end_time output_path : String)
    (run : FfmpegCmd → RunOutcome) : Bool × String :=
  match clip_video_plan input_path start_time end_time output_path with
  | .error msg => (false, msg)
  | .ok cmd => clip_video_check (run cmd) cmd.output

/-- `glob(f"{video_id}_*.mp4")` membership for a plain filename in the
downloads directory: the `*` matches any (possibly empty) run of
characters. -/
def glob_match (video_id name : String) : Bool :=
  List.isPrefixOf (video_id ++ "_").data name.data &&
    List.isSuffixOf ".mp4".data name.data &&
    video_id.data.length + 5 ≤ name.data.length

/-- Python `max(candidates, key=mtime)`: first element of maximal key
(later ties do not replace). -/
def max_by_mtime : List (String × Nat) → Option (String × Nat)
  | [] => none
  | x :: xs => some (xs.foldl (fun best y => if best.2 < y.2 then y else best) x)

/-- The artifact `perform_trim` selects (main.py lines 212-216): the
newest `{video_id}_*.mp4` in the downloads directory, from a listing of
(filename, mtime) pairs. -/
def selected_input (files : List (String × Nat)) (video_id : String) :
    Option (String × Nat) :=
  max_by_mtime (files.filter (fun f => glob_match video_id f.1))

/-- Effects of one `perform_trim` request: the HTTP response (`.ok` is the
redirect to `/`; `.error` an `HTTPException` status and detail), the ffmpeg
invocations performed, the paths unlinked, and the TrimMetadata records
written to a metadata store, as `(artifact filename, start text, end
text)`.  The handler body (main.py lines 205-239) contains no metadata
write, so `metaWrites` is `[]` on every path. -/
structure TrimEffects where
  response : Except (Nat × String) Unit
  ffmpegRuns : List FfmpegCmd
  unlinked : List String
  metaWrites : List (String × String × String)
deriving Repr

/-- `perform_trim` (main.py lines 205-239) at the level of its effects.
`files` is the downloads-directory listing as (filename, mtime); `run` is
the external-tool oracle.  Deleting the original when `keep_original` is
false is assumed to succeed (its exception path only logs). -/
def perform_trim (files : List (String × Nat)) (video_id start_time end_time : String)
    (keep_original : Bool) (run : FfmpegCmd → RunOutcome) : TrimEffects :=
  match selected_input files video_id with
  | none => ⟨.error (404, "No recording found"), [], [], []⟩
  | some input =>
    match clip_video_plan ("downloads/" ++ input.1) start_time end_time
        ("downloads/" ++ (py_stem ("downloads/" ++ input.1) ++ "_clip.mp4")) with
    | .error msg => ⟨.error (500, msg), [], [], []⟩
    | .ok cmd =>
      if (clip_video_check (run cmd) cmd.output).1 then
        ⟨.ok (), [cmd],
         if keep_original then [] else ["downloads/" ++ input.1], []⟩
      else
        ⟨.error (500, (clip_video_check (run cmd) cmd.output).2), [cmd], [], []⟩

/-- A run outcome in which the external tool succeeds and writes a
plausible file. -/
def goodOutcome : FfmpegCmd → RunOutcome := fun _ => ⟨0, "", true, 5000⟩

/-- A one-capture downloads directory. -/
def files0 : List (String × Nat) := [("abc123_20240101_000000.mp4", 5)]

/-- Effects of one `delete_recording` request: the HTTP response, the paths
unlinked (resolved, as segment lists relative to the working directory), and
the metadata records deleted.  The handler body (main.py lines 241-251)
unlinks the joined path only; it contains no metadata access, so
`metaDeletes` is `[]` on every path. -/
structure DeleteEffects where
  response : Except (Nat × String) Unit
  unlinked : List (List String)
  metaDeletes : List String
deriving Repr

/-- `delete_recording` (main.py lines 241-251): resolve
`DOWNLOAD_DIR / filename` with the caller's raw `filename`, 404 when no
regular file is there, otherwise unlink it.  `fs` is the set of regular
files, as resolved paths relative to the working directory; unlinking an
existing file is assumed to succeed (its exception path is a 500).  No
containment check against the downloads directory is performed. -/
def delete_recording (fs : List (List String)) (filename : String) : DeleteEffects :=
  if pathResolve (joinUnder downloadsSegs filename) ∈ fs then
    ⟨.ok (), [pathResolve (joinUnder downloadsSegs filename)], []⟩
  else
    ⟨.error (404, "File not found"), [], []⟩

/-- `get_file` (main.py lines 253-258): resolve `DOWNLOAD_DIR / filename`
with the caller's raw `filename`, 404 when no regular file is there,
otherwise serve that file (the `FileResponse`); returns the resolved path
served.  No containment check against the downloads directory is
performed. -/
def get_file (fs : List (List String)) (filename : String) :
    Except (Nat × String) (List String) :=
  if pathResolve (joinUnder downloadsSegs filename) ∈ fs then
    .ok (pathResolve (joinUnder downloadsSegs filename))
  else
    .error (404, "File not found")

/-- State of the start-recording path for one fixed stream identifier.
`registered` is `video_id ∈ active_processes`; `pendingThreads` counts
threads spawned by the handler whose `record_live_stream` body has not yet
run; `launched` counts external capture processes started
(`subprocess.Popen`, main.py line 67). -/
structure StartState where
  registered : Bool
  pendingThreads : Nat
  launched : Nat
deriving DecidableEq, Repr

/-- Atomic steps of the start-recording path.  `handler` is the
`start_recording` body (main.py lines 149-161): it runs on the event loop
with no await point, so the membership check and the thread spawn are one
atomic step.  `threadBody` is the launch-and-register prefix of
`record_live_stream` run by a spawned thread (main.py lines 66-68):
`Popen` followed by `active_processes[video_id] = ...` (merging the two
lines into one atomic step only removes interleavings). -/
inductive StartEvent where
  | handler
  | threadBody
deriving DecidableEq, Repr

def startStep (s : StartState) : StartEvent → StartState
  | .handler =>
    if s.registered then s
    else { s with pendingThreads := s.pendingThreads + 1 }
  | .threadBody =>
    match s.pendingThreads with
    | 0 => s
    | n + 1 => { registered := true, pendingThreads := n, launched := s.launched + 1 }

/-- Run a schedule of atomic steps from the initial state (identifier not
active, no threads, no processes). -/
def runStartTrace (events : List StartEvent) : StartState :=
  events.foldl startStep ⟨false, 0, 0⟩

/-- A downloads directory containing one clip artifact, as a filesystem of
resolved paths. -/
def fs1 : List (List String) := [["downloads", "abc123_20240101_000000_clip.mp4"]]

/-- A filesystem with a capture inside the downloads directory and a
sensitive file outside it. -/
def fsX : List (List String) := [["downloads", "a.mp4"], ["secret.txt"]]

/-- A run whose process exits zero but leaves only a 500-byte file, with
diagnostic text on stderr. -/
def truncatedOutcome : FfmpegCmd → RunOutcome := fun _ => ⟨0, " boom ", true, 500⟩

/-- Whether `pat` occurs as a contiguous substring of `l`. -/
def hasInfix (pat : List Char) : List Char → Bool
  | [] => pat.isEmpty
  | c :: rest => List.isPrefixOf pat (c :: rest) || hasInfix pat rest

/-! ### Semantic lemmas about decimal values -/

theorem DecVal.ble_iff (a b : DecVal) : a.ble b = true ↔ a.val ≤ b.val := by
  unfold DecVal.ble DecVal.val
  rw [decide_eq_true_eq, div_le_div_iff₀ (by positivity) (by positivity)]
  constructor <;> intro h <;> exact_mod_cast h

theorem DecVal.val_neg_iff (a : DecVal) : a.val < 0 ↔ a.num < 0 := by
  unfold DecVal.val
  rw [div_neg_iff]
  constructor
  · rintro (⟨_, h⟩ | ⟨h, _⟩)
    · nlinarith [pow_pos (show (0:ℚ) < 10 by norm_num) a.exp]
    · exact_mod_cast h
  · intro h
    exact Or.inr ⟨by exact_mod_cast h, by positivity⟩

/-! ### The parser rejects anything `float` cannot read -/

theorem mem_dropWhile_of_not {p : Char → Bool} {c : Char} {l : List Char}
    (hc : c ∈ l) (hp : p c = false) : c ∈ l.dropWhile p := by
  induction l with
  | nil => cases hc
  | cons d rest ih =>
    rcases List.mem_cons.mp hc with rfl | h
    · simp [List.dropWhile_cons, hp]
    · rw [List.dropWhile_cons]
      by_cases hd : p d = true
      · simpa [hd] using ih h
      · simp only [Bool.not_eq_true] at hd
        simp [hd, List.mem_cons, h]

theorem mem_trimChars {c : Char} {l : List Char} (hc : c ∈ l)
    (hp : pyIsSpace c = false) : c ∈ trimChars l := by
  unfold trimChars
  rw [List.mem_reverse]
  exact mem_dropWhile_of_not (by rw [List.mem_reverse]; exact mem_dropWhile_of_not hc hp) hp

theorem pyDecimal_of_mem_colon {l : List Char} (hc : ':' ∈ l) : pyDecimal l = none := by
  unfold pyDecimal
  split
  · next heq =>
    exfalso
    have := List.dropWhile_eq_nil_iff.mp heq ':' hc
    simp [isDigitC] at this
  · next frac heq =>
    have hcf : ':' ∈ frac := by
      have hsplit := List.takeWhile_append_dropWhile (p := isDigitC) (l := l)
      rw [← hsplit, List.mem_append] at hc
      rcases hc with h | h
      · have := List.mem_takeWhile_imp h
        simp [isDigitC] at this
      · rw [heq] at h
        rcases List.mem_cons.mp h with h' | h'
        · cases h'
        · exact h'
    rw [if_neg]
    intro hcond
    rw [Bool.and_eq_true] at hcond
    have := List.all_eq_true.mp hcond.1 ':' hcf
    simp [isDigitC] at this
  · rfl

theorem pyFloat_of_mem_colon (t : List Char) (hc : ':' ∈ t) : pyFloat ⟨t⟩ = none := by
  have hct : ':' ∈ trimChars t := mem_trimChars hc (by decide)
  unfold pyFloat
  split
  · rfl
  · next rest heq =>
    have h2 : trimChars t = '-' :: rest := heq
    rw [h2] at hct
    rcases List.mem_cons.mp hct with h' | h'
    · cases h'
    · rw [pyDecimal_of_mem_colon h']
      rfl
  · next rest heq =>
    have h2 : trimChars t = '+' :: rest := heq
    rw [h2] at hct
    rcases List.mem_cons.mp hct with h' | h'
    · cases h'
    · exact pyDecimal_of_mem_colon h'
  · exact pyDecimal_of_mem_colon hct

/-- C5: for well-formed plain-seconds, `mm:ss`, and `hh:mm:ss` inputs the
parser returns the expected total seconds (`"2:30"` → 150, `"1:02:03"` →
3723, `"90"` → 90), and an input containing `':'` that does not split into
exactly 2 or 3 components all readable as numbers parses to `none`. -/
theorem claim_C5_parser_values :
    (parse_time_to_seconds "2:30" = some ⟨150, 0⟩ ∧ DecVal.val ⟨150, 0⟩ = 150) ∧
    (parse_time_to_seconds "1:02:03" = some ⟨3723, 0⟩ ∧ DecVal.val ⟨3723, 0⟩ = 3723) ∧
    (parse_time_to_seconds "90" = some ⟨90, 0⟩ ∧ DecVal.val ⟨90, 0⟩ = 90) ∧
    (∀ s : String, (trimChars s.data).contains ':' = true →
      (¬ ((splitOnChar ':' (trimChars s.data)).length = 2 ∨
          (splitOnChar ':' (trimChars s.data)).length = 3) ∨
        (∃ p ∈ splitOnChar ':' (trimChars s.data), pyFloat ⟨p⟩ = none)) →
      parse_time_to_seconds s = none) := by
  refine ⟨⟨by decide, by norm_num [DecVal.val]⟩, ⟨by decide, by norm_num [DecVal.val]⟩,
    ⟨by decide, by norm_num [DecVal.val]⟩, ?_⟩
  intro s hc hbad
  have hmem : ':' ∈ trimChars s.data := List.mem_of_elem_eq_true hc
  have hne : trimChars s.data ≠ [] := by
    intro h
    rw [h] at hmem
    cases hmem
  unfold parse_time_to_seconds
  rw [if_neg hne, if_pos hc]
  split
  · next m s2 heq =>
    obtain ⟨p, hp, hnone⟩ : ∃ p, p ∈ [m, s2] ∧ pyFloat ⟨p⟩ = none := by
      rcases hbad with hlen | ⟨p, hp, hnone⟩
      · exact absurd (Or.inl (by rw [heq]; rfl)) hlen
      · exact ⟨p, by rw [← heq]; exact hp, hnone⟩
    have hp2 : pyFloat ⟨m⟩ = none ∨ pyFloat ⟨s2⟩ = none := by
      rcases List.mem_cons.mp hp with rfl | hp'
      · exact Or.inl hnone
      · rcases List.mem_cons.mp hp' with rfl | hp''
        · exact Or.inr hnone
        · cases hp''
    rcases hp2 with h | h
    · rw [h]
    · rw [h]
      cases pyFloat ⟨m⟩ <;> rfl
  · next h3 m s3 heq =>
    obtain ⟨p, hp, hnone⟩ : ∃ p, p ∈ [h3, m, s3] ∧ pyFloat ⟨p⟩ = none := by
      rcases hbad with hlen | ⟨p, hp, hnone⟩
      · exact absurd (Or.inr (by rw [heq]; rfl)) hlen
      · exact ⟨p, by rw [← heq]; exact hp, hnone⟩
    have hp3 : pyFloat ⟨h3⟩ = none ∨ pyFloat ⟨m⟩ = none ∨ pyFloat ⟨s3⟩ = none := by
      rcases List.mem_cons.mp hp with rfl | hp'
      · exact Or.inl hnone
      · rcases List.mem_cons.mp hp' with rfl | hp''
        · exact Or.inr (Or.inl hnone)
        · rcases List.mem_cons.mp hp'' with rfl | hp'''
          · exact Or.inr (Or.inr hnone)
          · cases hp'''
    rcases hp3 with h | h | h
    · rw [h]
    · rw [h]
      cases pyFloat ⟨h3⟩ <;> rfl
    · rw [h]
      cases pyFloat ⟨h3⟩ <;> cases pyFloat ⟨m⟩ <;> rfl
  · exact pyFloat_of_mem_colon _ hmem

/-- Witness for C5: a four-component input containing `':'` parses to
`none`. -/
theorem claim_C5_witness : parse_time_to_seconds "1:2:3:4" = none :=
  claim_C5_parser_values.2.2.2 "1:2:3:4" (by decide) (Or.inl (by decide))

/-- C6: after a run of the planned command, `clip_video` reports success
iff the tool exited zero, the output file exists, and its size exceeds the
fixed 1000-byte threshold; in every other case it reports failure whose
message carries the tool's captured stderr (or `"unknown error"` when that
is blank). -/
theorem claim_C6_success_iff (input st et out : String) (run : FfmpegCmd → RunOutcome)
    (cmd : FfmpegCmd) (hplan : clip_video_plan input st et out = .ok cmd) :
    ((clip_video input st et out run).1 = true ↔
      ((run cmd).returncode = 0 ∧ (run cmd).outExists = true ∧ 1000 < (run cmd).outSize)) ∧
    (¬ ((run cmd).returncode = 0 ∧ (run cmd).outExists = true ∧ 1000 < (run cmd).outSize) →
      (clip_video input st et out run).2 = "ffmpeg failed: " ++
        (if (⟨trimChars (run cmd).stderr.data⟩ : String) = "" then "unknown error"
         else (⟨trimChars (run cmd).stderr.data⟩ : String))) := by
  unfold clip_video
  simp only [hplan]
  unfold clip_video_check
  split
  · next h => exact ⟨by simp [h], fun hn => absurd h hn⟩
  · next h => exact ⟨by simp [h], fun _ => rfl⟩

/-- Witness for C6: a zero-exit run that left a 500-byte file is reported
as failure carrying the stripped stderr text. -/
theorem claim_C6_witness :
    (clip_video "downloads/v.mp4" "5" "" "downloads/v_clip.mp4" truncatedOutcome).2 =
      "ffmpeg failed: boom" := by
  have h := (claim_C6_success_iff "downloads/v.mp4" "5" "" "downloads/v_clip.mp4"
    truncatedOutcome ⟨"downloads/v.mp4", ⟨5, 0⟩, none, "downloads/v_clip.mp4"⟩ rfl).2
    (by decide)
  exact h.trans (by decide)

/-- C4 counterexample: the parser maps empty, whitespace-only, and
malformed input all to the same result `none`, so its result alone cannot
distinguish an absent time from a malformed one. -/
theorem claim_C4_counterexample :
    parse_time_to_seconds "" = none ∧ parse_time_to_seconds "   " = none ∧
    parse_time_to_seconds "abc" = none ∧
    parse_time_to_seconds "" = parse_time_to_seconds "abc" := by decide

/-- C4 amended: absence is distinguished not by the parser but by the
caller: `clip_video` tests the raw end string for emptiness before parsing,
so an empty end is extract-to-end while `"abc"` is an end-format error. -/
theorem claim_C4_absent_via_caller (input out st : String) (s : DecVal)
    (hs : parse_time_to_seconds st = some s) (hout : out ≠ "") :
    clip_video_plan input st "" out = .ok ⟨input, s, none, out⟩ ∧
    clip_video_plan input st "abc" out = .error "Invalid end time format" := by
  have habc : parse_time_to_seconds "abc" = none := by decide
  have hne : ("abc" : String) ≠ "" := by decide
  constructor
  · simp [clip_video_plan, hs, clip_output, hout]
  · simp [clip_video_plan, hs, habc, hne]

/-- Witness for C4's amended statement at concrete inputs. -/
theorem claim_C4_witness :
    clip_video_plan "downloads/v.mp4" "5" "" "downloads/v_clip.mp4" =
      .ok ⟨"downloads/v.mp4", ⟨5, 0⟩, none, "downloads/v_clip.mp4"⟩ ∧
    clip_video_plan "downloads/v.mp4" "5" "abc" "downloads/v_clip.mp4" =
      .error "Invalid end time format" :=
  claim_C4_absent_via_caller "downloads/v.mp4" "downloads/v_clip.mp4" "5" ⟨5, 0⟩ rfl
    (by decide)

/-- C9 counterexample: a trim whose start parses to the negative value -5
is accepted, the external tool is invoked with that negative seek offset,
and the request reports success. -/
theorem claim_C9_counterexample :
    (perform_trim files0 "abc123" "-5" "" true goodOutcome).response = .ok () ∧
    (perform_trim files0 "abc123" "-5" "" true goodOutcome).ffmpegRuns =
      [⟨"downloads/abc123_20240101_000000.mp4", ⟨-5, 0⟩, none,
        "downloads/abc123_20240101_000000_clip.mp4"⟩] ∧
    DecVal.val ⟨-5, 0⟩ < 0 := by
  refine ⟨rfl, by decide, ?_⟩
  norm_num [DecVal.val]

/-- C9 amended: the engine applies no range check to the parsed start: any
start that parses, negative included, yields a command passing that value
as the seek offset to the external tool. -/
theorem claim_C9_no_range_check (input st out : String) (s : DecVal)
    (hs : parse_time_to_seconds st = some s) (hneg : s.val < 0) (hout : out ≠ "") :
    clip_video_plan input st "" out = .ok ⟨input, s, none, out⟩ ∧ s.num < 0 :=
  ⟨by simp [clip_video_plan, hs, clip_output, hout], (DecVal.val_neg_iff s).mp hneg⟩

/-- Witness for C9's amended statement at start text `"-5"`. -/
theorem claim_C9_witness :
    clip_video_plan "downloads/v.mp4" "-5" "" "downloads/v_clip.mp4" =
      .ok ⟨"downloads/v.mp4", ⟨-5, 0⟩, none, "downloads/v_clip.mp4"⟩ ∧
    (⟨-5, 0⟩ : DecVal).num < 0 :=
  claim_C9_no_range_check "downloads/v.mp4" "-5" "downloads/v_clip.mp4" ⟨-5, 0⟩ rfl
    (by norm_num [DecVal.val]) (by decide)

/-- C2 (evidence for the start-recording race): with two start requests for
the same identifier, the schedule in which both handler bodies run before
either spawned thread registers launches two capture processes, whereas the
sequential schedule launches one; the claim that exactly one Session is
ever created fails on the first schedule. -/
theorem claim_C2_start_race :
    runStartTrace [.handler, .handler, .threadBody, .threadBody] =
      { registered := true, pendingThreads := 0, launched := 2 } ∧
    runStartTrace [.handler, .threadBody, .handler] =
      { registered := true, pendingThreads := 0, launched := 1 } := by decide

/-- C10: the filename `"../secret.txt"` resolves outside the downloads
directory, yet `delete_recording` unlinks it and `get_file` serves it. -/
theorem claim_C10_path_traversal :
    pathResolve (joinUnder downloadsSegs "../secret.txt") = ["secret.txt"] ∧
    List.isPrefixOf downloadsSegs ["secret.txt"] = false ∧
    (delete_recording fsX "../secret.txt").response = .ok () ∧
    (delete_recording fsX "../secret.txt").unlinked = [["secret.txt"]] ∧
    get_file fsX "../secret.txt" = .ok ["secret.txt"] :=
  ⟨by decide, by decide, rfl, by decide, rfl⟩

/-- C8 counterexample: deleting an existing clip artifact unlinks the file
but deletes no metadata record, against the claim that file and metadata
are removed together. -/
theorem claim_C8_counterexample :
    (delete_recording fs1 "abc123_20240101_000000_clip.mp4").response = .ok () ∧
    (delete_recording fs1 "abc123_20240101_000000_clip.mp4").unlinked =
      [["downloads", "abc123_20240101_000000_clip.mp4"]] ∧
    (delete_recording fs1 "abc123_20240101_000000_clip.mp4").metaDeletes = [] :=
  ⟨rfl, by decide, rfl⟩

/-- C8 amended: deletion removes the file only (no metadata record is ever
deleted, the code keeps none); deleting a filename that resolves to no
existing file reports 404 with no side effect. -/
theorem claim_C8_delete_file_only (fs : List (List String)) (filename : String) :
    (delete_recording fs filename).metaDeletes = [] ∧
    (pathResolve (joinUnder downloadsSegs filename) ∈ fs →
      (delete_recording fs filename).response = .ok () ∧
      (delete_recording fs filename).unlinked =
        [pathResolve (joinUnder downloadsSegs filename)]) ∧
    (pathResolve (joinUnder downloadsSegs filename) ∉ fs →
      (delete_recording fs filename).response = .error (404, "File not found") ∧
      (delete_recording fs filename).unlinked = []) := by
  unfold delete_recording
  split
  · next h => exact ⟨rfl, fun _ => ⟨rfl, rfl⟩, fun hn => absurd h hn⟩
  · next h => exact ⟨rfl, fun hm => absurd hm h, fun _ => ⟨rfl, rfl⟩⟩

/-- Witness for C8's amended statement: both the existing-file branch and
the missing-file branch at concrete inputs. -/
theorem claim_C8_witness :
    ((delete_recording fs1 "abc123_20240101_000000_clip.mp4").response = .ok () ∧
      (delete_recording fs1 "abc123_20240101_000000_clip.mp4").unlinked =
        [pathResolve (joinUnder downloadsSegs "abc123_20240101_000000_clip.mp4")]) ∧
    ((delete_recording fs1 "nope.mp4").response = .error (404, "File not found") ∧
      (delete_recording fs1 "nope.mp4").unlinked = []) :=
  ⟨(claim_C8_delete_file_only fs1 "abc123_20240101_000000_clip.mp4").2.1 (by decide),
   (claim_C8_delete_file_only fs1 "nope.mp4").2.2 (by decide)⟩

theorem downloads_prefix_ne (s : String) : "downloads/" ++ s ≠ "" := by
  intro h
  have h2 : ("downloads/" ++ s).data.length = 0 := by rw [h]; rfl
  rw [String.data_append, List.length_append] at h2
  have h3 : ("downloads/" : String).data.length = 10 := rfl
  omega

theorem clip_video_plan_ok_output {input st et out : String} {cmd : FfmpegCmd}
    (hout : out ≠ "") (h : clip_video_plan input st et out = .ok cmd) :
    cmd.output = out := by
  have hco : clip_output input out = out := by simp [clip_output, hout]
  unfold clip_video_plan at h
  split at h
  · simp at h
  · split at h
    · split at h
      · simp at h
      · split at h
        · simp at h
        · injection h with h2
          subst h2
          exact hco
    · injection h with h2
      subst h2
      exact hco

theorem perform_trim_run_mem {files : List (String × Nat)} {vid st et : String} {k : Bool}
    {run : FfmpegCmd → RunOutcome} {cmd : FfmpegCmd}
    (h : cmd ∈ (perform_trim files vid st et k run).ffmpegRuns) :
    ∃ inp, selected_input files vid = some inp ∧
      clip_video_plan ("downloads/" ++ inp.1) st et
        ("downloads/" ++ (py_stem ("downloads/" ++ inp.1) ++ "_clip.mp4")) = .ok cmd := by
  unfold perform_trim at h
  split at h
  · simp at h
  · next inp hsel =>
    split at h
    · simp at h
    · next cmd' hplan =>
      split at h
      · simp at h
        subst h
        exact ⟨inp, hsel, hplan⟩
      · simp at h
        subst h
        exact ⟨inp, hsel, hplan⟩

/-- C7: when the end time is present (nonempty) but unparsable, or parses
to a value at most the start, `perform_trim` rejects with the
cause-specific message and performs no ffmpeg invocation; the two messages
are distinct from each other and from the start-validation message. -/
theorem claim_C7_end_validation (files : List (String × Nat)) (vid st et : String)
    (k : Bool) (run : FfmpegCmd → RunOutcome) (inp : String × Nat) (s : DecVal)
    (hsel : selected_input files vid = some inp)
    (hs : parse_time_to_seconds st = some s) (hne : et ≠ "") :
    (parse_time_to_seconds et = none →
      (perform_trim files vid st et k run).response =
        .error (500, "Invalid end time format") ∧
      (perform_trim files vid st et k run).ffmpegRuns = []) ∧
    (∀ e : DecVal, parse_time_to_seconds et = some e → e.val ≤ s.val →
      (perform_trim files vid st et k run).response =
        .error (500, "End time must be after start time") ∧
      (perform_trim files vid st et k run).ffmpegRuns = []) ∧
    ("Invalid end time format" ≠ "End time must be after start time" ∧
     "Invalid end time format" ≠ "Invalid start time format" ∧
     "End time must be after start time" ≠ "Invalid start time format") := by
  refine ⟨?_, ?_, by decide, by decide, by decide⟩
  · intro het
    have hplan : clip_video_plan ("downloads/" ++ inp.1) st et
        ("downloads/" ++ (py_stem ("downloads/" ++ inp.1) ++ "_clip.mp4")) =
        .error "Invalid end time format" := by
      simp [clip_video_plan, hs, het, hne]
    simp [perform_trim, hsel, hplan]
  · intro e he hle
    have hble : e.ble s = true := (DecVal.ble_iff e s).mpr hle
    have hplan : clip_video_plan ("downloads/" ++ inp.1) st et
        ("downloads/" ++ (py_stem ("downloads/" ++ inp.1) ++ "_clip.mp4")) =
        .error "End time must be after start time" := by
      simp [clip_video_plan, hs, he, hne, hble]
    simp [perform_trim, hsel, hplan]

/-- Witness for C7: end text `"abc"` is rejected as an end-format error
with no ffmpeg run. -/
theorem claim_C7_witness :
    (perform_trim files0 "abc123" "5" "abc" true goodOutcome).response =
      .error (500, "Invalid end time format") ∧
    (perform_trim files0 "abc123" "5" "abc" true goodOutcome).ffmpegRuns = [] :=
  (claim_C7_end_validation files0 "abc123" "5" "abc" true goodOutcome
    ("abc123_20240101_000000.mp4", 5) ⟨5, 0⟩ rfl rfl (by decide)).1 rfl

/-- C1 counterexample: a successful trim (the run exits zero and leaves a
plausible file) writes no TrimMetadata record at all, against the claim
that success persists a record keyed by the produced artifact. -/
theorem claim_C1_counterexample :
    (perform_trim files0 "abc123" "0:10" "0:40" true goodOutcome).response = .ok () ∧
    (perform_trim files0 "abc123" "0:10" "0:40" true goodOutcome).metaWrites = [] :=
  ⟨rfl, rfl⟩

/-- C1 amended: `perform_trim` never writes TrimMetadata (the code has no
metadata store); success is still reported only after the produced file's
exit-code, existence and size validation. -/
theorem claim_C1_no_metadata_write (files : List (String × Nat)) (vid st et : String)
    (k : Bool) (run : FfmpegCmd → RunOutcome) :
    (perform_trim files vid st et k run).metaWrites = [] ∧
    ((perform_trim files vid st et k run).response = .ok () →
      ∃ cmd, (perform_trim files vid st et k run).ffmpegRuns = [cmd] ∧
        (run cmd).returncode = 0 ∧ (run cmd).outExists = true ∧
        1000 < (run cmd).outSize) := by
  unfold perform_trim
  split
  · exact ⟨rfl, fun h => by simp at h⟩
  · split
    · exact ⟨rfl, fun h => by simp at h⟩
    · next cmd hplan =>
      split
      · next hcheck =>
        refine ⟨rfl, fun _ => ⟨cmd, rfl, ?_⟩⟩
        unfold clip_video_check at hcheck
        split at hcheck
        · next hcond => exact hcond
        · exact absurd hcheck (by simp)
      · exact ⟨rfl, fun h => by simp at h⟩

/-- Witness for C1's amended statement at a concrete successful trim. -/
theorem claim_C1_witness :
    ∃ cmd, (perform_trim files0 "abc123" "0:10" "0:40" true goodOutcome).ffmpegRuns =
        [cmd] ∧
      (goodOutcome cmd).returncode = 0 ∧ (goodOutcome cmd).outExists = true ∧
      1000 < (goodOutcome cmd).outSize :=
  (claim_C1_no_metadata_write files0 "abc123" "0:10" "0:40" true goodOutcome).2 rfl

/-- C3 counterexample: the clip's output name ignores the start/end text:
two trims of the same capture with different times target the identical
path `downloads/abc123_20240101_000000_clip.mp4`, which contains no trace
of the times and is not the claimed `abc123_10-40.mp4`. -/
theorem claim_C3_counterexample :
    (perform_trim files0 "abc123" "0:10" "0:40" true goodOutcome).ffmpegRuns.map
        FfmpegCmd.output = ["downloads/abc123_20240101_000000_clip.mp4"] ∧
    (perform_trim files0 "abc123" "7:07" "8:08" true goodOutcome).ffmpegRuns.map
        FfmpegCmd.output = ["downloads/abc123_20240101_000000_clip.mp4"] ∧
    hasInfix "10-40".data "downloads/abc123_20240101_000000_clip.mp4".data = false ∧
    hasInfix "0:10".data "downloads/abc123_20240101_000000_clip.mp4".data = false ∧
    "abc123_20240101_000000_clip.mp4" ≠ "abc123_10-40.mp4" := by decide

/-- C3 amended: the output filename is a deterministic function of the
selected source artifact alone, `{source stem}_clip.mp4` under the
downloads directory; the start/end text plays no part, so any two trims of
the same source target the same path. -/
theorem claim_C3_deterministic_name (files : List (String × Nat)) (vid s1 e1 s2 e2 : String)
    (k1 k2 : Bool) (r1 r2 : FfmpegCmd → RunOutcome) (cmd1 cmd2 : FfmpegCmd)
    (h1 : cmd1 ∈ (perform_trim files vid s1 e1 k1 r1).ffmpegRuns)
    (h2 : cmd2 ∈ (perform_trim files vid s2 e2 k2 r2).ffmpegRuns) :
    cmd1.output = cmd2.output ∧
    ∃ inp, selected_input files vid = some inp ∧
      cmd1.output = "downloads/" ++ (py_stem ("downloads/" ++ inp.1) ++ "_clip.mp4") := by
  obtain ⟨inp, hsel, hplan⟩ := perform_trim_run_mem h1
  obtain ⟨inp', hsel', hplan'⟩ := perform_trim_run_mem h2
  rw [hsel] at hsel'
  injection hsel' with he
  subst he
  have ho1 := clip_video_plan_ok_output (downloads_prefix_ne _) hplan
  have ho2 := clip_video_plan_ok_output (downloads_prefix_ne _) hplan'
  exact ⟨ho1.trans ho2.symm, inp, hsel, ho1⟩

/-- Witness for C3's amended statement: the two concrete trims of
`claim_C3_counterexample`'s shape share one output path. -/
theorem claim_C3_witness :
    (⟨"downloads/abc123_20240101_000000.mp4", ⟨10, 0⟩, some ⟨30, 0⟩,
        "downloads/abc123_20240101_000000_clip.mp4"⟩ : FfmpegCmd).output =
      (⟨"downloads/abc123_20240101_000000.mp4", ⟨427, 0⟩, some ⟨61, 0⟩,
        "downloads/abc123_20240101_000000_clip.mp4"⟩ : FfmpegCmd).output ∧
    ∃ inp, selected_input files0 "abc123" = some inp ∧
      (⟨"downloads/abc123_20240101_000000.mp4", ⟨10, 0⟩, some ⟨30, 0⟩,
        "downloads/abc123_20240101_000000_clip.mp4"⟩ : FfmpegCmd).output =
        "downloads/" ++ (py_stem ("downloads/" ++ inp.1) ++ "_clip.mp4") :=
  claim_C3_deterministic_name files0 "abc123" "0:10" "0:40" "7:07" "8:08" true true
    goodOutcome goodOutcome _ _ (by decide) (by decide)

end Recorder
